import Mathlib

/-!
Shallow embedding of the command dispatch core of
`treydock/prometheus-alertmanager-responder`
(`internal/alert/alert.go` and `internal/alert/commands.go`).

External collaborators (the Go standard library, `golang.org/x/crypto/ssh`,
the operating system, the filesystem and the network) are modelled as
explicit oracle parameters; the control flow of the repository is translated
line by line.  `time.Duration` is the Go `int64` nanosecond count, modelled as
`Int` (no duration arithmetic in the translated code can overflow).
-/

namespace Responder

/-- Go `time.Duration`: an `int64` count of nanoseconds. -/
abbrev Duration := Int

/-- A structured log line, modelled as a (level, message) pair; the logging
side channel is an opaque sink, so only lines the claims mention are kept. -/
abbrev LogEntry := String × String

/-- Modelled from the spec: `internal/config.Config` is not under `src/`.
Its fields are taken from its uses in `HandleAlert` (alert.go lines 66-72)
together with the DefaultConfig list of the spec, which names fallback values for
user, ssh key path, ssh password, known-hosts path, host-key algorithms,
ssh connection timeout, ssh command timeout and local command timeout. -/
structure Config where
  user : String
  sshKey : String
  sshPassword : String
  sshKnownHosts : String
  sshHostKeyAlgorithms : List String
  sshConnectionTimeout : Duration
  sshCommandTimeout : Duration
  localCommandTimeout : Duration
deriving DecidableEq, Repr

/-- The alert data reaching the dispatch core: the fingerprint, labels and
annotations carried by `template.Alert` (alert.go lines 35-39). -/
structure Alert where
  fingerprint : String
  labels : List (String × String)
  annotations : List (String × String)
deriving DecidableEq, Repr

/-- `AlertResponse` (alert.go lines 41-53). -/
structure AlertResponse where
  user : String
  sshKey : String
  sshPassword : String
  sshKnownHosts : String
  sshHostKeyAlgorithms : List String
  sshConnectionTimeout : Duration
  sshCommandTimeout : Duration
  sshHost : String
  sshCommand : String
  localCommand : String
  localCommandTimeout : Duration
deriving DecidableEq, Repr

/-- Annotation key constant of alert.go line 26. -/
def userAnnotKey : String := "command_responder_user"

/-- Annotation key constant of alert.go line 27. -/
def sshKeyAnnotKey : String := "command_responder_ssh_key"

/-- Annotation key constant of alert.go line 28. -/
def sshHostAnnotKey : String := "command_responder_ssh_host"

/-- Annotation key constant of alert.go line 29. -/
def sshCommandAnnotKey : String := "command_responder_ssh_command"

/-- Annotation key constant of alert.go line 30. -/
def sshCommandTimeoutKey : String := "command_responder_ssh_command_timeout"

/-- Annotation key constant of alert.go line 31. -/
def localCommandAnnotKey : String := "command_responder_local_command"

/-- Annotation key constant of alert.go line 32. -/
def localCommandTimeoutKey : String := "command_responder_local_command_timeout"

/-- The defaults half of the struct literal in alert.go lines 65-73.
Fields of the Go struct literal that are not listed there
(SSHConnectionTimeout, SSHHost, SSHCommand, LocalCommand) take the Go zero
value. -/
def responseFromDefaults (c : Config) : AlertResponse :=
  { user := c.user
    sshKey := c.sshKey
    sshPassword := c.sshPassword
    sshKnownHosts := c.sshKnownHosts
    sshHostKeyAlgorithms := c.sshHostKeyAlgorithms
    sshConnectionTimeout := 0
    sshCommandTimeout := c.sshCommandTimeout
    sshHost := ""
    sshCommand := ""
    localCommand := ""
    localCommandTimeout := c.localCommandTimeout }

/-- Override block of alert.go lines 74-76. -/
def applyUserAnnot (ann : List (String × String)) (r : AlertResponse) : AlertResponse :=
  match ann.lookup userAnnotKey with
  | some v => { r with user := v }
  | none => r

/-- Override block of alert.go lines 77-79. -/
def applySSHKeyAnnot (ann : List (String × String)) (r : AlertResponse) : AlertResponse :=
  match ann.lookup sshKeyAnnotKey with
  | some v => { r with sshKey := v }
  | none => r

/-- Override block of alert.go lines 80-82. -/
def applySSHHostAnnot (ann : List (String × String)) (r : AlertResponse) : AlertResponse :=
  match ann.lookup sshHostAnnotKey with
  | some v => { r with sshHost := v }
  | none => r

/-- Override block of alert.go lines 83-85. -/
def applySSHCommandAnnot (ann : List (String × String)) (r : AlertResponse) : AlertResponse :=
  match ann.lookup sshCommandAnnotKey with
  | some v => { r with sshCommand := v }
  | none => r

/-- Override block of alert.go lines 86-93: parse the duration annotation;
on parse failure keep the default and log an error line. -/
def applySSHTimeoutAnnot (pd : String → Option Duration) (ann : List (String × String))
    (r : AlertResponse) : AlertResponse × List LogEntry :=
  match ann.lookup sshCommandTimeoutKey with
  | some v =>
    match pd v with
    | some t => ({ r with sshCommandTimeout := t }, [])
    | none => (r, [("error", "Unable to parse SSH command timeout")])
  | none => (r, [])

/-- Override block of alert.go lines 94-96. -/
def applyLocalCommandAnnot (ann : List (String × String)) (r : AlertResponse) : AlertResponse :=
  match ann.lookup localCommandAnnotKey with
  | some v => { r with localCommand := v }
  | none => r

/-- Override block of alert.go lines 97-104: parse the duration annotation;
on parse failure keep the default and log an error line. -/
def applyLocalTimeoutAnnot (pd : String → Option Duration) (ann : List (String × String))
    (r : AlertResponse) : AlertResponse × List LogEntry :=
  match ann.lookup localCommandTimeoutKey with
  | some v =>
    match pd v with
    | some t => ({ r with localCommandTimeout := t }, [])
    | none => (r, [("error", "Unable to parse local command timeout")])
  | none => (r, [])

/-- The resolution phase of `HandleAlert` (alert.go lines 65-105): build the
`AlertResponse` from config defaults, then apply the annotation override
blocks in source order.  `pd` is the Go library function time.ParseDuration, an external
library function, modelled as an oracle returning `none` exactly on parse
failure. -/
def HandleAlertResolve (pd : String → Option Duration) (c : Config) (a : Alert) :
    AlertResponse × List LogEntry :=
  let r4 := applySSHCommandAnnot a.annotations
    (applySSHHostAnnot a.annotations
      (applySSHKeyAnnot a.annotations
        (applyUserAnnot a.annotations (responseFromDefaults c))))
  let p5 := applySSHTimeoutAnnot pd a.annotations r4
  let r6 := applyLocalCommandAnnot a.annotations p5.1
  let p7 := applyLocalTimeoutAnnot pd a.annotations r6
  (p7.1, p5.2 ++ p7.2)

/-- Terminal status of one executor invocation (the
ExecutionOutcome of the spec): Success carries the captured stdout/stderr, Timeout and
Failure carry the Go error string the executor returns. -/
inductive Outcome where
  | success (stdout stderr : String)
  | timeout (msg : String)
  | failure (err : String)
deriving DecidableEq, Repr

/-- Whether an outcome is Success. -/
def Outcome.isSuccess : Outcome → Bool
  | .success _ _ => true
  | _ => false

/-- The Go `error` value an executor returns for this outcome (`nil` on
success). -/
def Outcome.errOf : Outcome → Option String
  | .success _ _ => none
  | .timeout m => some m
  | .failure e => some e

/-- The process-spawn request built by `runLocalCommand` (commands.go
line 44): `exec.CommandContext(ctx, r.LocalCommand)` passes the whole
command string as the executable name and supplies no further arguments;
the context deadline is the local command timeout. -/
structure SpawnRequest where
  prog : String
  args : List String
  timeout : Duration
deriving DecidableEq, Repr

/-- What the operating system reports back for one spawned command:
the error (if any) returned by cmd.Run, whether the context deadline was exceeded,
and the bytes written to the stdout/stderr buffers. -/
structure ProcResult where
  runErr : Option String
  deadlineExceeded : Bool
  stdout : String
  stderr : String
deriving DecidableEq, Repr

/-- `runLocalCommand` (commands.go lines 38-59), with the operating system
as the oracle `os`.  Returns the outcome together with the list of error
counter increments (each entry is the `type` label of one
`CommandErrorsTotal` increment). -/
def runLocalCommand (os : SpawnRequest → ProcResult) (r : AlertResponse) :
    Outcome × List String :=
  let res := os { prog := r.localCommand, args := [], timeout := r.localCommandTimeout }
  if res.deadlineExceeded then
    (.timeout ("Local command timed out: " ++ r.localCommand), ["local"])
  else
    match res.runErr with
    | some e => (.failure e, ["local"])
    | none => (.success res.stdout res.stderr, [])

/-- The environment one `runSSHCommand` invocation interacts with:
filesystem reads, key parsing, the known-hosts database, the transport
dial, the remote session, and the outcome of the worker/timer race. -/
structure SSHWorld where
  /-- Go `os.ReadFile`: the bytes of a file, or a read error. -/
  readFile : String → Except String (List Nat)
  /-- Go `ssh.ParsePrivateKey`: a parsed signer (abstract id), or a parse
  error. -/
  parsePrivateKey : List Nat → Except String Nat
  /-- Go `knownhosts.New`: the parsed known-hosts entries of a file, or a
  construction error (missing or malformed file). -/
  knownHostsDb : String → Except String (List (String × Nat))
  /-- Transport-level result of `ssh.Dial` before host-key verification
  (connection refused, unreachable, ...). -/
  dialTransport : Except String Unit
  /-- Hostname, remote address and server public key (abstract id)
  presented during the handshake when the transport succeeds. -/
  presentedHost : String × String × Nat
  /-- Result of `conn.NewSession()` (commands.go line 96). -/
  sessionResult : Except String Unit
  /-- Result of `session.Run` (commands.go line 102): stdout/stderr bytes
  on success, or the command error. -/
  commandResult : Except String (String × String)
  /-- Whether the completion signal of the worker goroutine on `c1` arrives
  before `time.After(r.SSHCommandTimeout)` fires (commands.go
  lines 111-113). -/
  workerBeatsTimer : Bool

/-- `getPrivateKeyAuth` (commands.go lines 136-146). -/
def getPrivateKeyAuth (w : SSHWorld) (privatekey : String) : Except String Nat :=
  match w.readFile privatekey with
  | .error e => .error e
  | .ok buffer =>
    match w.parsePrivateKey buffer with
    | .error e => .error e
    | .ok key => .ok key

/-- The authentication value `runSSHCommand` builds in commands.go
lines 65-78: a public-key method, a password method, or the nil
`ssh.AuthMethod` when neither `SSHKey` nor `SSHPassword` is set. -/
inductive AuthMethod where
  | publicKeys (signer : Nat)
  | password (pw : String)
  | nilAuth
deriving DecidableEq, Repr

/-- Authentication selection (commands.go lines 70-78); an error is the
early `return err` of line 74. -/
def authSelect (w : SSHWorld) (r : AlertResponse) : Except String AuthMethod :=
  if r.sshKey ≠ "" then
    match getPrivateKeyAuth w r.sshKey with
    | .error e => .error e
    | .ok signer => .ok (.publicKeys signer)
  else if r.sshPassword ≠ "" then .ok (.password r.sshPassword)
  else .ok .nilAuth

/-- Behaviour of the verifier `knownhosts.New` returns, per the
`golang.org/x/crypto/ssh/knownhosts` contract (an external library): the
presented key is accepted iff the parsed file has an entry pairing the
hostname with that key. -/
def knownHostsVerify (db : List (String × Nat)) (hostname : String)
    (_remote : String) (key : Nat) : Except String Unit :=
  if db.contains (hostname, key) then .ok ()
  else .error ("knownhosts: key mismatch for " ++ hostname)

/-- `hostKeyCallback` (commands.go lines 148-166): the closure installed as
`ssh.ClientConfig.HostKeyCallback`, applied to one presented host key.
Returns the verification result together with the counter increments the
callback itself performs (line 158 increments `{type: "ssh"}` when
`knownhosts.New` fails).  An empty known-hosts path delegates to
`ssh.InsecureIgnoreHostKey()`, which accepts every key. -/
def hostKeyCallback (w : SSHWorld) (knownHosts hostname remote : String)
    (key : Nat) : Except String Unit × List String :=
  if knownHosts ≠ "" then
    match w.knownHostsDb knownHosts with
    | .error e => (.error e, ["ssh"])
    | .ok db => (knownHostsVerify db hostname remote key, [])
  else (.ok (), [])

/-- `ssh.Dial` (commands.go line 86) as the library contract specifies: a
transport failure yields an error without invoking the host-key callback;
otherwise the handshake presents the server key to the installed callback
and the dial fails iff the callback rejects it.  The second component
collects the counter increments performed inside the callback. -/
def sshDial (w : SSHWorld) (knownHosts : String) : Except String Unit × List String :=
  match w.dialTransport with
  | .error e => (.error e, [])
  | .ok _ =>
    match w.presentedHost with
    | (h, rem, k) => hostKeyCallback w knownHosts h rem k

/-- Whether the worker goroutine (commands.go lines 94-109) ever sends on
`c1` before the timer fires: it returns early without sending when session
creation fails (line 98) or the command errors (line 104), and otherwise
sends only if the timer has not yet fired. -/
def workerSentSignal (w : SSHWorld) : Bool :=
  match w.sessionResult with
  | .error _ => false
  | .ok _ =>
    match w.commandResult with
    | .error _ => false
    | .ok _ => w.workerBeatsTimer

/-- Result of one `runSSHCommand` invocation: the outcome, the counter
increments (in order of occurrence, including those performed inside the
host-key callback), and whether a dial was attempted. -/
structure SSHRun where
  outcome : Outcome
  incs : List String
  dialed : Bool
deriving DecidableEq, Repr

/-- `runSSHCommand` (commands.go lines 61-134).  The `select` on
lines 111-119 receives from `c1` only when the worker sent (the timer
branch is taken otherwise); the post-select checks of `sessionerror` and
`commanderror` (lines 122-131) are translated as written. -/
def runSSHCommand (w : SSHWorld) (r : AlertResponse) : SSHRun :=
  match authSelect w r with
  | .error e => { outcome := .failure e, incs := [], dialed := false }
  | .ok _auth =>
    match sshDial w r.sshKnownHosts with
    | (.error e, cbIncs) =>
      { outcome := .failure e, incs := cbIncs ++ ["ssh"], dialed := true }
    | (.ok _, cbIncs) =>
      if workerSentSignal w then
        match w.sessionResult with
        | .error e => { outcome := .failure e, incs := cbIncs ++ ["ssh"], dialed := true }
        | .ok _ =>
          match w.commandResult with
          | .error e => { outcome := .failure e, incs := cbIncs ++ ["ssh"], dialed := true }
          | .ok (outS, errS) => { outcome := .success outS errS, incs := cbIncs, dialed := true }
      else
        { outcome := .timeout ("Timeout executing SSH command: " ++ r.sshCommand),
          incs := cbIncs ++ ["ssh"], dialed := true }

/-- Observable result of the dispatch phase of `HandleAlert` (alert.go
lines 107-126): the returned error, how many times each executor was
invoked, the outcome of each path, and every counter increment in order. -/
structure DispatchResult where
  err : Option String
  localRuns : Nat
  sshRuns : Nat
  localOutcome : Option Outcome
  sshOutcome : Option Outcome
  incs : List String
deriving DecidableEq, Repr

/-- The dispatch phase of `HandleAlert` (alert.go lines 107-126): run the
local path when `LocalCommand` is non-empty, then the SSH path when
`SSHCommand` is non-empty; `err` is assigned by whichever paths run, in
order, and the final value is returned. -/
def HandleAlertDispatch (os : SpawnRequest → ProcResult) (w : SSHWorld)
    (r : AlertResponse) : DispatchResult :=
  let d0 : DispatchResult :=
    { err := none, localRuns := 0, sshRuns := 0,
      localOutcome := none, sshOutcome := none, incs := [] }
  let d1 :=
    if r.localCommand ≠ "" then
      let lr := runLocalCommand os r
      { d0 with err := lr.1.errOf, localRuns := 1,
                localOutcome := some lr.1, incs := lr.2 }
    else d0
  if r.sshCommand ≠ "" then
    let sr := runSSHCommand w r
    { d1 with err := sr.outcome.errOf, sshRuns := d1.sshRuns + 1,
              sshOutcome := some sr.outcome, incs := d1.incs ++ sr.incs }
  else d1

/-- `HandleAlert` (alert.go lines 62-127): resolve the `AlertResponse`
from defaults and annotations, then dispatch. -/
def HandleAlert (pd : String → Option Duration) (os : SpawnRequest → ProcResult)
    (w : SSHWorld) (c : Config) (a : Alert) :
    AlertResponse × List LogEntry × DispatchResult :=
  let rl := HandleAlertResolve pd c a
  (rl.1, rl.2, HandleAlertDispatch os w rl.1)

/-- Rewrites `applyUserAnnot` into a single record update. -/
lemma applyUserAnnot_eq (ann : List (String × String)) (r : AlertResponse) :
    applyUserAnnot ann r =
      { r with user := match ann.lookup userAnnotKey with | some v => v | none => r.user } := by
  unfold applyUserAnnot; split <;> rfl

/-- Rewrites `applySSHKeyAnnot` into a single record update. -/
lemma applySSHKeyAnnot_eq (ann : List (String × String)) (r : AlertResponse) :
    applySSHKeyAnnot ann r =
      { r with sshKey := match ann.lookup sshKeyAnnotKey with | some v => v | none => r.sshKey } := by
  unfold applySSHKeyAnnot; split <;> rfl

/-- Rewrites `applySSHHostAnnot` into a single record update. -/
lemma applySSHHostAnnot_eq (ann : List (String × String)) (r : AlertResponse) :
    applySSHHostAnnot ann r =
      { r with sshHost := match ann.lookup sshHostAnnotKey with | some v => v | none => r.sshHost } := by
  unfold applySSHHostAnnot; split <;> rfl

/-- Rewrites `applySSHCommandAnnot` into a single record update. -/
lemma applySSHCommandAnnot_eq (ann : List (String × String)) (r : AlertResponse) :
    applySSHCommandAnnot ann r =
      { r with sshCommand :=
          match ann.lookup sshCommandAnnotKey with | some v => v | none => r.sshCommand } := by
  unfold applySSHCommandAnnot; split <;> rfl

/-- Rewrites `applyLocalCommandAnnot` into a single record update. -/
lemma applyLocalCommandAnnot_eq (ann : List (String × String)) (r : AlertResponse) :
    applyLocalCommandAnnot ann r =
      { r with localCommand :=
          match ann.lookup localCommandAnnotKey with | some v => v | none => r.localCommand } := by
  unfold applyLocalCommandAnnot; split <;> rfl

/-- Rewrites `applySSHTimeoutAnnot` into a record update paired with its
log output. -/
lemma applySSHTimeoutAnnot_eq (pd : String → Option Duration)
    (ann : List (String × String)) (r : AlertResponse) :
    applySSHTimeoutAnnot pd ann r =
      ({ r with sshCommandTimeout :=
          match ann.lookup sshCommandTimeoutKey with
          | some v => (match pd v with | some t => t | none => r.sshCommandTimeout)
          | none => r.sshCommandTimeout },
       match ann.lookup sshCommandTimeoutKey with
       | some v =>
         (match pd v with
          | some _ => ([] : List LogEntry)
          | none => [("error", "Unable to parse SSH command timeout")])
       | none => ([] : List LogEntry)) := by
  unfold applySSHTimeoutAnnot
  split
  · split <;> rfl
  · rfl

/-- Rewrites `applyLocalTimeoutAnnot` into a record update paired with its
log output. -/
lemma applyLocalTimeoutAnnot_eq (pd : String → Option Duration)
    (ann : List (String × String)) (r : AlertResponse) :
    applyLocalTimeoutAnnot pd ann r =
      ({ r with localCommandTimeout :=
          match ann.lookup localCommandTimeoutKey with
          | some v => (match pd v with | some t => t | none => r.localCommandTimeout)
          | none => r.localCommandTimeout },
       match ann.lookup localCommandTimeoutKey with
       | some v =>
         (match pd v with
          | some _ => ([] : List LogEntry)
          | none => [("error", "Unable to parse local command timeout")])
       | none => ([] : List LogEntry)) := by
  unfold applyLocalTimeoutAnnot
  split
  · split <;> rfl
  · rfl

/-- Per-field characterization of the resolver: each field of the produced
`AlertResponse` as a function of the config defaults, the annotation
lookups and the duration parser.  Shared workhorse for the resolver
claims. -/
lemma resolve_fields (pd : String → Option Duration) (c : Config) (a : Alert) :
    (HandleAlertResolve pd c a).1.user =
      (match a.annotations.lookup userAnnotKey with | some v => v | none => c.user)
  ∧ (HandleAlertResolve pd c a).1.sshKey =
      (match a.annotations.lookup sshKeyAnnotKey with | some v => v | none => c.sshKey)
  ∧ (HandleAlertResolve pd c a).1.sshPassword = c.sshPassword
  ∧ (HandleAlertResolve pd c a).1.sshKnownHosts = c.sshKnownHosts
  ∧ (HandleAlertResolve pd c a).1.sshHostKeyAlgorithms = c.sshHostKeyAlgorithms
  ∧ (HandleAlertResolve pd c a).1.sshConnectionTimeout = 0
  ∧ (HandleAlertResolve pd c a).1.sshHost =
      (match a.annotations.lookup sshHostAnnotKey with | some v => v | none => "")
  ∧ (HandleAlertResolve pd c a).1.sshCommand =
      (match a.annotations.lookup sshCommandAnnotKey with | some v => v | none => "")
  ∧ (HandleAlertResolve pd c a).1.localCommand =
      (match a.annotations.lookup localCommandAnnotKey with | some v => v | none => "")
  ∧ (HandleAlertResolve pd c a).1.sshCommandTimeout =
      (match a.annotations.lookup sshCommandTimeoutKey with
        | some v => (match pd v with | some t => t | none => c.sshCommandTimeout)
        | none => c.sshCommandTimeout)
  ∧ (HandleAlertResolve pd c a).1.localCommandTimeout =
      (match a.annotations.lookup localCommandTimeoutKey with
        | some v => (match pd v with | some t => t | none => c.localCommandTimeout)
        | none => c.localCommandTimeout) := by
  simp only [HandleAlertResolve, applyUserAnnot_eq, applySSHKeyAnnot_eq, applySSHHostAnnot_eq,
    applySSHCommandAnnot_eq, applySSHTimeoutAnnot_eq, applyLocalCommandAnnot_eq,
    applyLocalTimeoutAnnot_eq, responseFromDefaults]
  exact ⟨trivial, trivial, trivial, trivial, trivial, trivial, trivial, trivial, trivial,
    trivial, trivial⟩

/-- Characterization of the log lines the resolver emits: exactly one
error line per malformed duration annotation. -/
lemma resolve_logs (pd : String → Option Duration) (c : Config) (a : Alert) :
    (HandleAlertResolve pd c a).2 =
      (match a.annotations.lookup sshCommandTimeoutKey with
        | some v =>
          (match pd v with
            | some _ => ([] : List LogEntry)
            | none => [("error", "Unable to parse SSH command timeout")])
        | none => ([] : List LogEntry))
      ++ (match a.annotations.lookup localCommandTimeoutKey with
        | some v =>
          (match pd v with
            | some _ => ([] : List LogEntry)
            | none => [("error", "Unable to parse local command timeout")])
        | none => ([] : List LogEntry)) := by
  simp only [HandleAlertResolve, applyUserAnnot_eq, applySSHKeyAnnot_eq, applySSHHostAnnot_eq,
    applySSHCommandAnnot_eq, applySSHTimeoutAnnot_eq, applyLocalCommandAnnot_eq,
    applyLocalTimeoutAnnot_eq, responseFromDefaults]

/-- Dispatch with both command fields empty does nothing: the two `if`
guards of alert.go lines 109 and 117 are both false. -/
lemma dispatch_no_commands (os : SpawnRequest → ProcResult) (w : SSHWorld)
    (r : AlertResponse) (h1 : r.localCommand = "") (h2 : r.sshCommand = "") :
    HandleAlertDispatch os w r =
      { err := none, localRuns := 0, sshRuns := 0,
        localOutcome := none, sshOutcome := none, incs := [] } := by
  simp [HandleAlertDispatch, h1, h2]

/-- Dispatch with only the local command set. -/
lemma dispatch_local_only (os : SpawnRequest → ProcResult) (w : SSHWorld)
    (r : AlertResponse) (h1 : r.localCommand ≠ "") (h2 : r.sshCommand = "") :
    HandleAlertDispatch os w r =
      { err := (runLocalCommand os r).1.errOf, localRuns := 1, sshRuns := 0,
        localOutcome := some (runLocalCommand os r).1, sshOutcome := none,
        incs := (runLocalCommand os r).2 } := by
  simp [HandleAlertDispatch, h1, h2]

/-- Dispatch with both commands set: both executors run, and the returned
error is overwritten by the result of the SSH path (alert.go line 120). -/
lemma dispatch_both (os : SpawnRequest → ProcResult) (w : SSHWorld)
    (r : AlertResponse) (h1 : r.localCommand ≠ "") (h2 : r.sshCommand ≠ "") :
    HandleAlertDispatch os w r =
      { err := (runSSHCommand w r).outcome.errOf, localRuns := 1, sshRuns := 1,
        localOutcome := some (runLocalCommand os r).1,
        sshOutcome := some (runSSHCommand w r).outcome,
        incs := (runLocalCommand os r).2 ++ (runSSHCommand w r).incs } := by
  simp [HandleAlertDispatch, h1, h2]

/-- Private-key auth setup failure (commands.go lines 70-75): the executor
returns the error at once — no dial, and no counter increment. -/
lemma runSSH_auth_error (w : SSHWorld) (r : AlertResponse) (e : String)
    (h1 : r.sshKey ≠ "") (h2 : getPrivateKeyAuth w r.sshKey = .error e) :
    runSSHCommand w r = { outcome := .failure e, incs := [], dialed := false } := by
  simp [runSSHCommand, authSelect, h1, h2]

/-- Transport-level dial failure: callback never invoked, one increment. -/
lemma runSSH_transport_error (w : SSHWorld) (r : AlertResponse) (m : AuthMethod) (e : String)
    (h1 : authSelect w r = .ok m) (h2 : w.dialTransport = .error e) :
    runSSHCommand w r = { outcome := .failure e, incs := ["ssh"], dialed := true } := by
  simp [runSSHCommand, sshDial, h1, h2]

/-- Known-hosts construction failure during the handshake: the callback
increments once (commands.go line 158) and the dial-failure handler
increments again (commands.go line 89). -/
lemma runSSH_knownhosts_error (w : SSHWorld) (r : AlertResponse) (m : AuthMethod) (e : String)
    (h1 : authSelect w r = .ok m) (h2 : w.dialTransport = .ok ())
    (h3 : r.sshKnownHosts ≠ "") (h4 : w.knownHostsDb r.sshKnownHosts = .error e) :
    runSSHCommand w r = { outcome := .failure e, incs := ["ssh", "ssh"], dialed := true } := by
  rcases hP : w.presentedHost with ⟨hn, rem, k⟩
  simp [runSSHCommand, sshDial, hostKeyCallback, h1, h2, h3, h4, hP]

/-- On a successful dial the callback contributed no increments. -/
lemma sshDial_ok_no_incs (w : SSHWorld) (kh : String) (u : Unit) (cb : List String)
    (h : sshDial w kh = (.ok u, cb)) : cb = [] := by
  unfold sshDial hostKeyCallback knownHostsVerify at h
  rcases hd : w.dialTransport with e | u2 <;> rw [hd] at h
  · simp at h
  · rcases hP : w.presentedHost with ⟨hn, rem, k⟩
    rw [hP] at h
    by_cases hk : kh = ""
    · simp [hk] at h
      simp_all
    · rcases hdb : w.knownHostsDb kh with e2 | db
      · simp [hk, hdb] at h
      · simp [hk, hdb] at h
        exact h.2

/-- Condition under which commands.go lines 70-75 take the early-return
path: a key path is configured and reading or parsing it fails. -/
def authSetupFails (w : SSHWorld) (r : AlertResponse) : Prop :=
  r.sshKey ≠ "" ∧ ∃ e, getPrivateKeyAuth w r.sshKey = .error e

/-- Condition under which `knownhosts.New` fails inside the host-key
callback during the handshake of a dial that reached host-key
verification. -/
def khConstructFails (w : SSHWorld) (r : AlertResponse) : Prop :=
  r.sshKnownHosts ≠ "" ∧ w.dialTransport = .ok () ∧
    ∃ e, w.knownHostsDb r.sshKnownHosts = .error e

/-- An `authSelect` error is exactly a private-key setup failure. -/
lemma authSelect_error (w : SSHWorld) (r : AlertResponse) (e : String)
    (h : authSelect w r = .error e) :
    r.sshKey ≠ "" ∧ getPrivateKeyAuth w r.sshKey = .error e := by
  unfold authSelect at h
  by_cases hk : r.sshKey = ""
  · by_cases hp : r.sshPassword = "" <;> simp [hk, hp] at h
  · rcases hg : getPrivateKeyAuth w r.sshKey with e2 | s <;> simp [hk, hg] at h
    subst h
    exact ⟨hk, rfl⟩

/-- When no private-key setup failure occurs, authentication selection
succeeds. -/
lemma authSelect_not_error (w : SSHWorld) (r : AlertResponse)
    (hn : ¬ authSetupFails w r) : ∃ m, authSelect w r = .ok m := by
  unfold authSetupFails at hn
  unfold authSelect
  by_cases hk : r.sshKey = ""
  · by_cases hp : r.sshPassword = "" <;> simp [hk, hp]
  · rcases hg : getPrivateKeyAuth w r.sshKey with e | s
    · exact absurd ⟨hk, e, hg⟩ hn
    · simp [hk, hg]

/-- A transport-level dial failure invokes no callback. -/
lemma sshDial_transport_error (w : SSHWorld) (kh : String) (e : String)
    (h : w.dialTransport = .error e) : sshDial w kh = (.error e, []) := by
  simp [sshDial, h]

/-- Increments performed inside the callback of a failed dial: none,
except exactly one on a known-hosts construction failure. -/
lemma sshDial_error_incs (w : SSHWorld) (kh : String) (e : String) (cb : List String)
    (h : sshDial w kh = (.error e, cb)) :
    cb = [] ∨ (cb = ["ssh"] ∧ kh ≠ "" ∧ w.dialTransport = .ok () ∧
               w.knownHostsDb kh = .error e) := by
  unfold sshDial hostKeyCallback knownHostsVerify at h
  rcases hd : w.dialTransport with e2 | u2 <;> rw [hd] at h
  · simp at h
    exact Or.inl h.2
  · rcases hP : w.presentedHost with ⟨hn, rem, k⟩
    rw [hP] at h
    by_cases hk : kh = ""
    · simp [hk] at h
    · rcases hdb : w.knownHostsDb kh with e2 | db
      · simp [hk, hdb] at h
        obtain ⟨he, hcb⟩ := h
        subst he
        exact Or.inr ⟨hcb.symm, hk, rfl, rfl⟩
      · by_cases hc : (hn, k) ∈ db <;> simp [hk, hdb, hc] at h
        exact Or.inl h.2

/-- Worker signal implies session creation and command run both
succeeded and the signal beat the timer. -/
lemma workerSentSignal_true (w : SSHWorld) (h : workerSentSignal w = true) :
    w.sessionResult = .ok () ∧ ∃ p, w.commandResult = .ok p ∧ w.workerBeatsTimer = true := by
  unfold workerSentSignal at h
  rcases hs : w.sessionResult with e | u <;> rw [hs] at h
  · cases h
  · rcases hc : w.commandResult with e | p <;> rw [hc] at h
    · cases h
    · exact ⟨by cases u; rfl, p, rfl, h⟩

/-- Dial failure path of commands.go lines 86-91: one increment on top of
whatever the callback already counted. -/
lemma runSSH_dial_error (w : SSHWorld) (r : AlertResponse) (m : AuthMethod)
    (e : String) (cb : List String) (h1 : authSelect w r = .ok m)
    (h2 : sshDial w r.sshKnownHosts = (.error e, cb)) :
    runSSHCommand w r = { outcome := .failure e, incs := cb ++ ["ssh"], dialed := true } := by
  simp [runSSHCommand, h1, h2]

/-- Timer branch of the select (commands.go lines 113-118): when the
worker never signals, the outcome is Timeout with one increment. -/
lemma runSSH_timer_fires (w : SSHWorld) (r : AlertResponse) (m : AuthMethod)
    (u : Unit) (cb : List String) (h1 : authSelect w r = .ok m)
    (h2 : sshDial w r.sshKnownHosts = (.ok u, cb)) (h3 : workerSentSignal w = false) :
    runSSHCommand w r =
      { outcome := .timeout ("Timeout executing SSH command: " ++ r.sshCommand),
        incs := ["ssh"], dialed := true } := by
  have hcb := sshDial_ok_no_incs w r.sshKnownHosts u cb h2
  subst hcb
  simp [runSSHCommand, h1, h2, h3]

/-- Success path: the worker signalled, so session and command both
succeeded; captured output is returned and nothing is counted. -/
lemma runSSH_worker_signals (w : SSHWorld) (r : AlertResponse) (m : AuthMethod)
    (u : Unit) (cb : List String) (h1 : authSelect w r = .ok m)
    (h2 : sshDial w r.sshKnownHosts = (.ok u, cb)) (h3 : workerSentSignal w = true) :
    ∃ p, w.commandResult = .ok p ∧
      runSSHCommand w r = { outcome := .success p.1 p.2, incs := [], dialed := true } := by
  obtain ⟨hs, p, hc, _⟩ := workerSentSignal_true w h3
  have hcb := sshDial_ok_no_incs w r.sshKnownHosts u cb h2
  subst hcb
  refine ⟨p, hc, ?_⟩
  rcases p with ⟨outS, errS⟩
  simp [runSSHCommand, h1, h2, h3, hs, hc]

/-!
Interleaving model of the worker/timer race in `runSSHCommand`
(commands.go lines 94-120) for an invocation whose `session.Run` returns
only after `time.After(r.SSHCommandTimeout)` has fired.  At that point the
`select` (line 111) has committed to the timer case, because `c1` is still
empty (the worker sends only after `session.Run` returns).  The remaining
events, in a sequentially consistent interleaving of the worker goroutine
and the timer branch of the main goroutine, are modelled below.
-/

/-- Program counter of the worker goroutine after the timer has fired:
`running` is inside `session.Run` (line 102); `finished` is after `Run`
returned and before the `!timeout` read (line 106); `readFalse` is past a
read that observed `timeout == false`, about to execute `c1 <- 1`
(line 107); `sent` is after a successful send; `noSend` is the return path
taken when the read observed `timeout == true`; `panicked` is the
send-on-closed-channel runtime panic, which kills the whole process. -/
inductive WorkerPC where
  | running
  | finished
  | readFalse
  | sent
  | noSend
  | panicked
deriving DecidableEq, Repr

/-- Program counter of the main goroutine inside the committed timer case:
`branch` is at line 113 before `timeout = true`; `flagSet` is after
line 114; `chClosed` is after `close(c1)` on line 115; `returnedTimeout`
is after the `return` on line 118 delivered the Timeout outcome. -/
inductive MainPC where
  | branch
  | flagSet
  | chClosed
  | returnedTimeout
deriving DecidableEq, Repr

/-- Joint state of the race. -/
structure RaceState where
  worker : WorkerPC
  main : MainPC
deriving DecidableEq, Repr

/-- Value of the shared `timeout` flag: set once the main goroutine has
executed line 114. -/
def flagOf : MainPC → Bool
  | .branch => false
  | _ => true

/-- Whether `c1` has been closed (line 115). -/
def chanClosed : MainPC → Bool
  | .branch => false
  | .flagSet => false
  | _ => true

/-- One sequentially consistent scheduler step of the race.  Main-side
steps require the process not to have panicked (a panic in any goroutine
aborts the program). -/
inductive RaceStep : RaceState → RaceState → Prop where
  | wFinish (m : MainPC) :
      RaceStep ⟨.running, m⟩ ⟨.finished, m⟩
  | wReadFalse (m : MainPC) (h : flagOf m = false) :
      RaceStep ⟨.finished, m⟩ ⟨.readFalse, m⟩
  | wReadTrue (m : MainPC) (h : flagOf m = true) :
      RaceStep ⟨.finished, m⟩ ⟨.noSend, m⟩
  | wSend (m : MainPC) (h : chanClosed m = false) :
      RaceStep ⟨.readFalse, m⟩ ⟨.sent, m⟩
  | wSendPanic (m : MainPC) (h : chanClosed m = true) :
      RaceStep ⟨.readFalse, m⟩ ⟨.panicked, m⟩
  | mFlag (wk : WorkerPC) (h : wk ≠ .panicked) :
      RaceStep ⟨wk, .branch⟩ ⟨wk, .flagSet⟩
  | mClose (wk : WorkerPC) (h : wk ≠ .panicked) :
      RaceStep ⟨wk, .flagSet⟩ ⟨wk, .chClosed⟩
  | mReturn (wk : WorkerPC) (h : wk ≠ .panicked) :
      RaceStep ⟨wk, .chClosed⟩ ⟨wk, .returnedTimeout⟩

/-- Reachability under the scheduler. -/
def RaceReach : RaceState → RaceState → Prop := Relation.ReflTransGen RaceStep

/-- Initial state of the modelled scenario: the timer has fired and the
select committed to the timer case, while the worker is still inside
`session.Run`. -/
def raceInit : RaceState := ⟨.running, .branch⟩

/-- Whether the invocation has delivered its Timeout outcome. -/
def returnedOutcome (s : RaceState) : Bool := s.main = .returnedTimeout

/-- The local executor increments the counter exactly when the outcome is
not Success (commands.go lines 48-56). -/
lemma runLocal_incs (os : SpawnRequest → ProcResult) (r : AlertResponse) :
    ((runLocalCommand os r).1.isSuccess = true ∧ (runLocalCommand os r).2 = [])
  ∨ ((runLocalCommand os r).1.isSuccess = false ∧ (runLocalCommand os r).2 = ["local"]) := by
  unfold runLocalCommand
  dsimp only
  split
  · right; exact ⟨rfl, rfl⟩
  · split
    · right; exact ⟨rfl, rfl⟩
    · left; exact ⟨rfl, rfl⟩

/-- A known-hosts construction failure during the handshake makes the dial
fail with the construction error, after one in-callback increment. -/
lemma sshDial_kh_error (w : SSHWorld) (kh : String) (e : String)
    (h1 : kh ≠ "") (h2 : w.dialTransport = .ok ())
    (h3 : w.knownHostsDb kh = .error e) :
    sshDial w kh = (.error e, ["ssh"]) := by
  rcases hP : w.presentedHost with ⟨hn, rem, k⟩
  simp [sshDial, hostKeyCallback, h1, h2, h3, hP]

/-- Complete case split of one `runSSHCommand` invocation by its counter
increments and outcome. -/
lemma runSSH_cases (w : SSHWorld) (r : AlertResponse) :
    (authSetupFails w r ∧ (runSSHCommand w r).incs = [] ∧
       (runSSHCommand w r).outcome.isSuccess = false)
  ∨ (¬ authSetupFails w r ∧ khConstructFails w r ∧
       (runSSHCommand w r).incs = ["ssh", "ssh"] ∧
       (runSSHCommand w r).outcome.isSuccess = false)
  ∨ (¬ authSetupFails w r ∧ ¬ khConstructFails w r ∧
       (runSSHCommand w r).incs = ["ssh"] ∧
       (runSSHCommand w r).outcome.isSuccess = false)
  ∨ (¬ authSetupFails w r ∧ ¬ khConstructFails w r ∧
       (runSSHCommand w r).incs = [] ∧
       (runSSHCommand w r).outcome.isSuccess = true) := by
  rcases ha : authSelect w r with e | m
  · obtain ⟨hk, hg⟩ := authSelect_error w r e ha
    have hrun := runSSH_auth_error w r e hk hg
    exact Or.inl ⟨⟨hk, e, hg⟩, by rw [hrun], by rw [hrun]; rfl⟩
  · have hna : ¬ authSetupFails w r := by
      rintro ⟨hk, e, hg⟩
      unfold authSelect at ha
      simp [hk, hg] at ha
    rcases hdial : sshDial w r.sshKnownHosts with ⟨res, cb⟩
    rcases res with e | u
    · have hrun := runSSH_dial_error w r m e cb ha hdial
      rcases sshDial_error_incs w r.sshKnownHosts e cb hdial with hcb | ⟨hcb, hkh, htr, hdb⟩
      · refine Or.inr (Or.inr (Or.inl ⟨hna, ?_, by rw [hrun, hcb]; rfl, by rw [hrun]; rfl⟩))
        rintro ⟨hkh, htr, e2, hdb⟩
        rw [sshDial_kh_error w r.sshKnownHosts e2 hkh htr hdb] at hdial
        have : cb = ["ssh"] := by
          have := congrArg (fun p => p.2) hdial
          simpa using this.symm
        simp [this] at hcb
      · exact Or.inr (Or.inl ⟨hna, ⟨hkh, htr, e, hdb⟩, by rw [hrun, hcb]; rfl,
          by rw [hrun]; rfl⟩)
    · have hnk : ¬ khConstructFails w r := by
        rintro ⟨hkh, htr, e2, hdb⟩
        rw [sshDial_kh_error w r.sshKnownHosts e2 hkh htr hdb] at hdial
        cases hdial
      cases hws : workerSentSignal w
      · have hrun := runSSH_timer_fires w r m u cb ha hdial hws
        exact Or.inr (Or.inr (Or.inl ⟨hna, hnk, by rw [hrun], by rw [hrun]; rfl⟩))
      · obtain ⟨p, hc, hrun⟩ := runSSH_worker_signals w r m u cb ha hdial hws
        exact Or.inr (Or.inr (Or.inr ⟨hna, hnk, by rw [hrun], by rw [hrun]; rfl⟩))

/-- Number of executor invocations depends only on the two command
fields. -/
lemma dispatch_runs (os : SpawnRequest → ProcResult) (w : SSHWorld) (r : AlertResponse) :
    (HandleAlertDispatch os w r).localRuns = (if r.localCommand ≠ "" then 1 else 0)
  ∧ (HandleAlertDispatch os w r).sshRuns = (if r.sshCommand ≠ "" then 1 else 0) := by
  by_cases h1 : r.localCommand = "" <;> by_cases h2 : r.sshCommand = "" <;>
    simp [HandleAlertDispatch, h1, h2]

/-!
Concrete fixtures used by the witnesses and counterexamples below.
-/

/-- A duration parser that fails on every input (exercises the
parse-failure path; also used where no duration annotation is present). -/
def pdNone : String → Option Duration := fun _ => none

/-- A platform model with exactly two executables, `/bin/sh` (which runs
its `-c` script, so a shell invocation of `echo hi` would print `hi`) and
`echo`.  Spawning any other program name fails to launch, as `execve`
lookup is by exact name. -/
def stdOS : SpawnRequest → ProcResult := fun req =>
  if req.prog = "/bin/sh" then
    match req.args with
    | ["-c", script] =>
      if script = "echo hi" then
        { runErr := none, deadlineExceeded := false, stdout := "hi\n", stderr := "" }
      else
        { runErr := some "sh: command failed", deadlineExceeded := false,
          stdout := "", stderr := "" }
    | _ =>
      { runErr := some "sh: bad invocation", deadlineExceeded := false,
        stdout := "", stderr := "" }
  else if req.prog = "echo" then
    { runErr := none, deadlineExceeded := false,
      stdout := String.intercalate " " req.args ++ "\n", stderr := "" }
  else
    { runErr := some ("exec: \"" ++ req.prog ++ "\": executable file not found in $PATH"),
      deadlineExceeded := false, stdout := "", stderr := "" }

/-- A platform on which the program `failcmd` launches but exits with a
non-zero status, and everything else succeeds. -/
def failOS : SpawnRequest → ProcResult := fun req =>
  if req.prog = "failcmd" then
    { runErr := some "exit status 1", deadlineExceeded := false,
      stdout := "", stderr := "boom" }
  else
    { runErr := none, deadlineExceeded := false, stdout := "", stderr := "" }

/-- An SSH environment in which everything succeeds: the transport
connects, the presented key is `42` for `host1`, the session opens and the
command completes before the timer. -/
def okWorld : SSHWorld :=
  { readFile := fun _ => .error "unused"
    parsePrivateKey := fun _ => .error "unused"
    knownHostsDb := fun _ => .error "unused"
    dialTransport := .ok ()
    presentedHost := ("host1", "192.0.2.10:22", 42)
    sessionResult := .ok ()
    commandResult := .ok ("remote ok\n", "")
    workerBeatsTimer := true }

/-- Like `okWorld`, but the configured private-key file does not exist. -/
def badKeyWorld : SSHWorld :=
  { okWorld with readFile := fun _ => .error "open /etc/responder/id_rsa: no such file or directory" }

/-- Like `okWorld`, but the key file exists and fails to parse. -/
def badParseWorld : SSHWorld :=
  { okWorld with
    readFile := fun _ => .ok [0]
    parsePrivateKey := fun _ => .error "ssh: no key found" }

/-- Like `okWorld`, but the known-hosts file cannot be parsed. -/
def badKnownHostsWorld : SSHWorld :=
  { okWorld with knownHostsDb := fun _ => .error "knownhosts: missing host pattern" }

/-- Like `okWorld`, but with a real known-hosts database mapping `host1`
to key `42`. -/
def dbWorld : SSHWorld :=
  { okWorld with
    knownHostsDb := fun p =>
      if p = "/etc/ssh/known_hosts" then .ok [("host1", 42)]
      else .error "open: no such file" }

/-- A default configuration with a non-zero ssh connection timeout (5s),
a 10s ssh command timeout and a 30s local command timeout. -/
def cfgBase : Config :=
  { user := "root", sshKey := "", sshPassword := "", sshKnownHosts := "",
    sshHostKeyAlgorithms := [], sshConnectionTimeout := 5000000000,
    sshCommandTimeout := 10000000000, localCommandTimeout := 30000000000 }

/-- An alert carrying no annotations at all. -/
def alertNoAnns : Alert := { fingerprint := "fp1", labels := [], annotations := [] }

/-- The end-to-end scenario alert: only `command_responder_local_command`
set, to `echo hi`. -/
def alertEchoHi : Alert :=
  { fingerprint := "fp2", labels := [("alertname", "TestAlert")],
    annotations := [(localCommandAnnotKey, "echo hi")] }

/-- An alert whose two duration annotations are both malformed. -/
def alertBadTimeouts : Alert :=
  { fingerprint := "fp3", labels := [],
    annotations := [(sshCommandTimeoutKey, "soon"), (localCommandTimeoutKey, "later")] }

/-- A response whose key path is set (for the auth-failure scenarios). -/
def rBadKey : AlertResponse :=
  { user := "root", sshKey := "/etc/responder/id_rsa", sshPassword := "",
    sshKnownHosts := "", sshHostKeyAlgorithms := [], sshConnectionTimeout := 0,
    sshCommandTimeout := 10000000000, sshHost := "host1:22", sshCommand := "uptime",
    localCommand := "", localCommandTimeout := 0 }

/-- A response using password auth and a configured known-hosts path. -/
def rKnownHosts : AlertResponse :=
  { rBadKey with
    sshKey := ""
    sshPassword := "secret"
    sshKnownHosts := "/etc/ssh/known_hosts" }

/-- A response with both a local command (which fails on `failOS`) and an
SSH command (which succeeds in `okWorld`). -/
def rBoth : AlertResponse :=
  { rBadKey with
    sshKey := ""
    sshPassword := "secret"
    localCommand := "failcmd"
    localCommandTimeout := 30000000000 }

/-!
Claim theorems.
-/

/-- C1: the claim states that every field of the resolved `AlertResponse`,
including `sshConnectionTimeout`, is either the corresponding config
default or the value of the designated annotation.  In the code, the struct
literal of alert.go lines 65-73 never copies `SSHConnectionTimeout` from
the config and no annotation key exists for the field, so it is always the
zero duration — in particular it equals neither the default nor any
override whenever the configured default is non-zero, as witnessed by
`cfgBase` (5s connection timeout) with an annotation-free alert. -/
theorem C1_sshConnectionTimeout_dropped :
    (∀ (pd : String → Option Duration) (c : Config) (a : Alert),
      (HandleAlertResolve pd c a).1.sshConnectionTimeout = 0)
  ∧ (HandleAlertResolve pdNone cfgBase alertNoAnns).1.sshConnectionTimeout ≠
      cfgBase.sshConnectionTimeout := by
  refine ⟨fun pd c a => (resolve_fields pd c a).2.2.2.2.2.1, by decide⟩

/-- Counterexample to C2: with `sshKey` set to an unreadable path, the SSH
executor returns the Failure outcome immediately and attempts no dial, but
performs NO error-counter increment, whereas the claim requires the
counter to be incremented with label ssh for that attempt. -/
theorem C2_counterexample :
    runSSHCommand badKeyWorld rBadKey =
      { outcome := .failure "open /etc/responder/id_rsa: no such file or directory",
        incs := [], dialed := false }
  ∧ (runSSHCommand badKeyWorld rBadKey).incs ≠ ["ssh"] := by decide

/-- C2 (amended): for every `AlertResponse` whose `sshKey` points at a
private-key file that cannot be read or parsed, the SSH executor returns a
Failure outcome immediately, attempts no connection, and performs no
error-counter increment (commands.go lines 70-75 return before any
`CommandErrorsTotal` call). -/
theorem C2_amended (w : SSHWorld) (r : AlertResponse) (e : String)
    (h1 : r.sshKey ≠ "") (h2 : getPrivateKeyAuth w r.sshKey = .error e) :
    runSSHCommand w r = { outcome := .failure e, incs := [], dialed := false } :=
  runSSH_auth_error w r e h1 h2

/-- Witness for C2 (amended) at a key file that exists but fails to
parse. -/
theorem C2_amended_witness :
    runSSHCommand badParseWorld rBadKey =
      { outcome := .failure "ssh: no key found", incs := [], dialed := false } :=
  C2_amended badParseWorld rBadKey "ssh: no key found" (by decide) rfl

/-- C6: the host-key verification policy accepts every key when the
configured known-hosts path is empty, and with a non-empty path whose file
parses it accepts a presented key iff the file has an entry pairing the
hostname with that key. -/
theorem C6_hostkey_policy (w : SSHWorld) (kh hn rem : String) (k : Nat) :
    (kh = "" → hostKeyCallback w kh hn rem k = (.ok (), []))
  ∧ (∀ db, kh ≠ "" → w.knownHostsDb kh = .ok db →
      ((hostKeyCallback w kh hn rem k).1 = .ok () ↔ (hn, k) ∈ db)) := by
  constructor
  · intro h
    simp [hostKeyCallback, h]
  · intro db hk hdb
    by_cases hc : (hn, k) ∈ db <;>
      simp [hostKeyCallback, knownHostsVerify, hk, hdb, hc]

/-- Witness for C6: empty path accepts key 42; with a database mapping
host1 to key 42, host1/42 is accepted and other/7 is rejected. -/
theorem C6_hostkey_policy_witness :
    hostKeyCallback okWorld "" "host1" "192.0.2.10:22" 42 = (.ok (), [])
  ∧ (hostKeyCallback dbWorld "/etc/ssh/known_hosts" "host1" "192.0.2.10:22" 42).1 = .ok ()
  ∧ (hostKeyCallback dbWorld "/etc/ssh/known_hosts" "other" "192.0.2.10:22" 7).1 ≠ .ok () := by
  refine ⟨(C6_hostkey_policy okWorld "" "host1" "192.0.2.10:22" 42).1 rfl,
    ((C6_hostkey_policy dbWorld "/etc/ssh/known_hosts" "host1" "192.0.2.10:22" 42).2
      [("host1", 42)] (by decide) rfl).mpr (by decide),
    fun hacc => ?_⟩
  have hmem := ((C6_hostkey_policy dbWorld "/etc/ssh/known_hosts" "other" "192.0.2.10:22" 7).2
      [("host1", 42)] (by decide) rfl).mp hacc
  exact absurd hmem (by decide)

/-- C8: a present but unparsable duration annotation (ssh or local command
timeout) leaves the corresponding field at its config default and emits an
error log line, and the dispatch of both action paths is unaffected: each
executor runs iff its command field is non-empty, regardless of the parse
failure. -/
theorem C8_malformed_duration (pd : String → Option Duration)
    (os : SpawnRequest → ProcResult) (w : SSHWorld) (c : Config) (a : Alert)
    (v1 v2 : String) :
    (a.annotations.lookup sshCommandTimeoutKey = some v1 → pd v1 = none →
      (HandleAlertResolve pd c a).1.sshCommandTimeout = c.sshCommandTimeout
      ∧ ("error", "Unable to parse SSH command timeout") ∈ (HandleAlertResolve pd c a).2)
  ∧ (a.annotations.lookup localCommandTimeoutKey = some v2 → pd v2 = none →
      (HandleAlertResolve pd c a).1.localCommandTimeout = c.localCommandTimeout
      ∧ ("error", "Unable to parse local command timeout") ∈ (HandleAlertResolve pd c a).2)
  ∧ ((HandleAlert pd os w c a).2.2.localRuns =
        (if (HandleAlertResolve pd c a).1.localCommand ≠ "" then 1 else 0)
     ∧ (HandleAlert pd os w c a).2.2.sshRuns =
        (if (HandleAlertResolve pd c a).1.sshCommand ≠ "" then 1 else 0)) := by
  obtain ⟨-, -, -, -, -, -, -, -, -, hTO, hLTO⟩ := resolve_fields pd c a
  have hlogs := resolve_logs pd c a
  refine ⟨?_, ?_, ?_⟩
  · intro hv hpd
    constructor
    · simp only [hv, hpd] at hTO
      exact hTO
    · rw [hlogs]
      simp [hv, hpd]
  · intro hv hpd
    constructor
    · simp only [hv, hpd] at hLTO
      exact hLTO
    · rw [hlogs]
      simp [hv, hpd]
  · exact dispatch_runs os w (HandleAlertResolve pd c a).1

/-- Witness for C8 at an alert whose two duration annotations are both
malformed: both timeout fields keep their defaults, both error lines are
logged, and no executor runs since no command is configured. -/
theorem C8_malformed_duration_witness :
    (HandleAlertResolve pdNone cfgBase alertBadTimeouts).1.sshCommandTimeout =
        cfgBase.sshCommandTimeout
  ∧ ("error", "Unable to parse SSH command timeout") ∈
        (HandleAlertResolve pdNone cfgBase alertBadTimeouts).2
  ∧ (HandleAlertResolve pdNone cfgBase alertBadTimeouts).1.localCommandTimeout =
        cfgBase.localCommandTimeout
  ∧ ("error", "Unable to parse local command timeout") ∈
        (HandleAlertResolve pdNone cfgBase alertBadTimeouts).2
  ∧ (HandleAlert pdNone stdOS okWorld cfgBase alertBadTimeouts).2.2.localRuns = 0
  ∧ (HandleAlert pdNone stdOS okWorld cfgBase alertBadTimeouts).2.2.sshRuns = 0 := by
  obtain ⟨hs, hl, hr⟩ :=
    C8_malformed_duration pdNone stdOS okWorld cfgBase alertBadTimeouts "soon" "later"
  obtain ⟨hs1, hs2⟩ := hs (by decide) rfl
  obtain ⟨hl1, hl2⟩ := hl (by decide) rfl
  refine ⟨hs1, hs2, hl1, hl2, ?_, ?_⟩
  · rw [hr.1]; decide
  · rw [hr.2]; decide

/-- C9: when both command fields are empty the dispatcher performs zero
executor invocations, zero counter increments, and returns no error (both
`if` guards of alert.go lines 109 and 117 are false). -/
theorem C9_no_commands (os : SpawnRequest → ProcResult) (w : SSHWorld)
    (r : AlertResponse) (h1 : r.localCommand = "") (h2 : r.sshCommand = "") :
    HandleAlertDispatch os w r =
      { err := none, localRuns := 0, sshRuns := 0,
        localOutcome := none, sshOutcome := none, incs := [] } :=
  dispatch_no_commands os w r h1 h2

/-- Witness for C9 at the default-resolved response of `cfgBase`. -/
theorem C9_no_commands_witness :
    HandleAlertDispatch stdOS okWorld (responseFromDefaults cfgBase) =
      { err := none, localRuns := 0, sshRuns := 0,
        localOutcome := none, sshOutcome := none, incs := [] } :=
  C9_no_commands stdOS okWorld (responseFromDefaults cfgBase) rfl rfl

/-- C10: `sshHost`, `sshCommand` and `localCommand` have no config
fallback — they are empty whenever their annotation is absent (the struct
literal of alert.go lines 65-73 leaves them at the Go zero value), and hence
an alert without command annotations dispatches no action for any
defaults. -/
theorem C10_no_command_annots (pd : String → Option Duration)
    (os : SpawnRequest → ProcResult) (w : SSHWorld) (c : Config) (a : Alert)
    (h1 : a.annotations.lookup sshHostAnnotKey = none)
    (h2 : a.annotations.lookup sshCommandAnnotKey = none)
    (h3 : a.annotations.lookup localCommandAnnotKey = none) :
    (HandleAlertResolve pd c a).1.sshHost = ""
  ∧ (HandleAlertResolve pd c a).1.sshCommand = ""
  ∧ (HandleAlertResolve pd c a).1.localCommand = ""
  ∧ (HandleAlert pd os w c a).2.2 =
      { err := none, localRuns := 0, sshRuns := 0,
        localOutcome := none, sshOutcome := none, incs := [] } := by
  obtain ⟨-, -, -, -, -, -, hHost, hCmd, hLocal, -, -⟩ := resolve_fields pd c a
  simp only [h1] at hHost
  simp only [h2] at hCmd
  simp only [h3] at hLocal
  refine ⟨hHost, hCmd, hLocal, ?_⟩
  show HandleAlertDispatch os w (HandleAlertResolve pd c a).1 = _
  exact dispatch_no_commands os w _ hLocal hCmd

/-- Counterexample to C3: a single SSH execution attempt whose known-hosts
verifier construction fails increments the error counter TWICE — once
inside the host-key callback (commands.go line 158) and once in the
dial-failure handler (commands.go line 89) — where the claim allows at
most one increment per attempt. -/
theorem C3_counterexample :
    (runSSHCommand badKnownHostsWorld rKnownHosts).incs = ["ssh", "ssh"]
  ∧ (runSSHCommand badKnownHostsWorld rKnownHosts).outcome.isSuccess = false := by
  decide

/-- C3 (amended): per execution attempt the error counter is incremented
exactly once on failure or timeout and never on success, with two
exceptions in the SSH executor: an attempt aborted by a private-key setup
failure increments zero times, and an attempt whose known-hosts verifier
construction fails during the handshake increments twice. -/
theorem C3_amended (os : SpawnRequest → ProcResult) (w : SSHWorld) (r : AlertResponse) :
    ((runLocalCommand os r).1.isSuccess = true → (runLocalCommand os r).2 = [])
  ∧ ((runLocalCommand os r).1.isSuccess = false → (runLocalCommand os r).2 = ["local"])
  ∧ ((runSSHCommand w r).outcome.isSuccess = true → (runSSHCommand w r).incs = [])
  ∧ (authSetupFails w r → (runSSHCommand w r).incs = [])
  ∧ (¬ authSetupFails w r → khConstructFails w r →
       (runSSHCommand w r).incs = ["ssh", "ssh"])
  ∧ (¬ authSetupFails w r → ¬ khConstructFails w r →
       (runSSHCommand w r).outcome.isSuccess = false →
       (runSSHCommand w r).incs = ["ssh"]) := by
  refine ⟨?_, ?_, ?_, ?_, ?_, ?_⟩
  · intro hs
    rcases runLocal_incs os r with ⟨h1, h2⟩ | ⟨h1, h2⟩
    · exact h2
    · rw [h1] at hs; exact Bool.noConfusion hs
  · intro hs
    rcases runLocal_incs os r with ⟨h1, h2⟩ | ⟨h1, h2⟩
    · rw [h1] at hs; exact Bool.noConfusion hs
    · exact h2
  · intro hs
    rcases runSSH_cases w r with ⟨-, -, h⟩ | ⟨-, -, -, h⟩ | ⟨-, -, -, h⟩ | ⟨-, -, h, -⟩
    · rw [h] at hs; exact Bool.noConfusion hs
    · rw [h] at hs; exact Bool.noConfusion hs
    · rw [h] at hs; exact Bool.noConfusion hs
    · exact h
  · intro ha
    rcases runSSH_cases w r with ⟨-, h, -⟩ | ⟨hna, -, -, -⟩ | ⟨hna, -, -, -⟩ | ⟨hna, -, -, -⟩
    · exact h
    · exact absurd ha hna
    · exact absurd ha hna
    · exact absurd ha hna
  · intro hna hkf
    rcases runSSH_cases w r with ⟨ha, -, -⟩ | ⟨-, -, h, -⟩ | ⟨-, hnk, -, -⟩ | ⟨-, hnk, -, -⟩
    · exact absurd ha hna
    · exact h
    · exact absurd hkf hnk
    · exact absurd hkf hnk
  · intro hna hnk hs
    rcases runSSH_cases w r with ⟨ha, -, -⟩ | ⟨-, hkf, -, -⟩ | ⟨-, -, h, -⟩ | ⟨-, -, -, h⟩
    · exact absurd ha hna
    · exact absurd hkf hnk
    · exact h
    · rw [h] at hs; exact Bool.noConfusion hs

/-- Witness for C3 (amended): a failed local attempt counts once; an
attempt hitting the known-hosts construction failure counts twice. -/
theorem C3_amended_witness :
    (runLocalCommand failOS rBoth).2 = ["local"]
  ∧ (runSSHCommand badKnownHostsWorld rKnownHosts).incs = ["ssh", "ssh"] :=
  ⟨(C3_amended failOS okWorld rBoth).2.1 (by decide),
   (C3_amended failOS badKnownHostsWorld rKnownHosts).2.2.2.2.1
     (fun h => h.1 rfl)
     ⟨by decide, rfl, "knownhosts: missing host pattern", rfl⟩⟩

/-- Counterexample to C4: with both commands set, a failing local path and
a succeeding SSH path, the dispatcher returns no error even though an
error was encountered during the dispatch — the assignment of alert.go
line 120 overwrites the error of the local path. -/
theorem C4_counterexample :
    (HandleAlertDispatch failOS okWorld rBoth).localOutcome =
        some (.failure "exit status 1")
  ∧ (HandleAlertDispatch failOS okWorld rBoth).localRuns = 1
  ∧ (HandleAlertDispatch failOS okWorld rBoth).sshRuns = 1
  ∧ (HandleAlertDispatch failOS okWorld rBoth).err = none := by
  decide

/-- C4 (amended): with both commands non-empty the dispatcher always
attempts both paths (a local failure never prevents the SSH attempt) and
returns the result of the last attempted path — the error of the SSH path, or
no error when the SSH path succeeds, even if that masks an earlier local
failure. -/
theorem C4_amended (os : SpawnRequest → ProcResult) (w : SSHWorld)
    (r : AlertResponse) (h1 : r.localCommand ≠ "") (h2 : r.sshCommand ≠ "") :
    (HandleAlertDispatch os w r).localRuns = 1
  ∧ (HandleAlertDispatch os w r).sshRuns = 1
  ∧ (HandleAlertDispatch os w r).localOutcome = some (runLocalCommand os r).1
  ∧ (HandleAlertDispatch os w r).err = (runSSHCommand w r).outcome.errOf := by
  rw [dispatch_both os w r h1 h2]
  exact ⟨rfl, rfl, rfl, rfl⟩

/-- Witness for C4 (amended) at the masking scenario. -/
theorem C4_amended_witness :
    (HandleAlertDispatch failOS okWorld rBoth).localRuns = 1
  ∧ (HandleAlertDispatch failOS okWorld rBoth).sshRuns = 1
  ∧ (HandleAlertDispatch failOS okWorld rBoth).localOutcome =
      some (runLocalCommand failOS rBoth).1
  ∧ (HandleAlertDispatch failOS okWorld rBoth).err =
      (runSSHCommand okWorld rBoth).outcome.errOf :=
  C4_amended failOS okWorld rBoth (by decide) (by decide)

/-- Counterexample to C5: the code passes the whole annotation string as
the executable name with no arguments and no shell (commands.go line 44),
so on a platform where a shell invocation of `echo hi` would print `hi`
but no executable is named "echo hi", the end-to-end scenario yields a
Failure with one counter increment, not the claimed Success with stdout
`hi` and an unchanged counter. -/
theorem C5_counterexample :
    stdOS { prog := "/bin/sh", args := ["-c", "echo hi"], timeout := 30000000000 } =
      { runErr := none, deadlineExceeded := false, stdout := "hi\n", stderr := "" }
  ∧ (HandleAlert pdNone stdOS okWorld cfgBase alertEchoHi).2.2.localRuns = 1
  ∧ (HandleAlert pdNone stdOS okWorld cfgBase alertEchoHi).2.2.sshRuns = 0
  ∧ (HandleAlert pdNone stdOS okWorld cfgBase alertEchoHi).2.2.localOutcome =
      some (.failure "exec: \"echo hi\": executable file not found in $PATH")
  ∧ (HandleAlert pdNone stdOS okWorld cfgBase alertEchoHi).2.2.incs = ["local"] := by
  decide

/-- C5 (amended): the local executor spawns the entire command string as
the program name, with no arguments and no shell; hence for an alert whose
only command annotation is a local command the platform cannot launch
under that exact name, the dispatcher invokes only the local executor, the
outcome is Failure carrying the launch error, and the error counter
increments once with label local. -/
theorem C5_amended (pd : String → Option Duration) (os : SpawnRequest → ProcResult)
    (w : SSHWorld) (c : Config) (a : Alert) (cmd e : String) (res : ProcResult)
    (h1 : a.annotations.lookup localCommandAnnotKey = some cmd)
    (h2 : a.annotations.lookup sshCommandAnnotKey = none)
    (h3 : a.annotations.lookup localCommandTimeoutKey = none)
    (h4 : cmd ≠ "")
    (h5 : os { prog := cmd, args := [], timeout := c.localCommandTimeout } = res)
    (h6 : res.deadlineExceeded = false)
    (h7 : res.runErr = some e) :
    (HandleAlert pd os w c a).2.2.localRuns = 1
  ∧ (HandleAlert pd os w c a).2.2.sshRuns = 0
  ∧ (HandleAlert pd os w c a).2.2.localOutcome = some (.failure e)
  ∧ (HandleAlert pd os w c a).2.2.incs = ["local"]
  ∧ (HandleAlert pd os w c a).2.2.err = some e := by
  obtain ⟨-, -, -, -, -, -, -, hCmd, hLocal, -, hLTO⟩ := resolve_fields pd c a
  simp only [h2] at hCmd
  simp only [h1] at hLocal
  simp only [h3] at hLTO
  have hlc : (HandleAlertResolve pd c a).1.localCommand ≠ "" := by
    rw [hLocal]; exact h4
  have hrl : runLocalCommand os (HandleAlertResolve pd c a).1 = (.failure e, ["local"]) := by
    unfold runLocalCommand
    dsimp only
    rw [hLocal, hLTO, h5]
    simp [h6, h7]
  have hd : (HandleAlert pd os w c a).2.2 =
      HandleAlertDispatch os w (HandleAlertResolve pd c a).1 := rfl
  rw [hd, dispatch_local_only os w _ hlc hCmd, hrl]
  exact ⟨rfl, rfl, rfl, rfl, rfl⟩

/-- Witness for C5 (amended) at the `echo hi` scenario on `stdOS`. -/
theorem C5_amended_witness :
    (HandleAlert pdNone stdOS okWorld cfgBase alertEchoHi).2.2.localRuns = 1
  ∧ (HandleAlert pdNone stdOS okWorld cfgBase alertEchoHi).2.2.sshRuns = 0
  ∧ (HandleAlert pdNone stdOS okWorld cfgBase alertEchoHi).2.2.localOutcome =
      some (.failure "exec: \"echo hi\": executable file not found in $PATH")
  ∧ (HandleAlert pdNone stdOS okWorld cfgBase alertEchoHi).2.2.incs = ["local"]
  ∧ (HandleAlert pdNone stdOS okWorld cfgBase alertEchoHi).2.2.err =
      some "exec: \"echo hi\": executable file not found in $PATH" :=
  C5_amended pdNone stdOS okWorld cfgBase alertEchoHi "echo hi"
    "exec: \"echo hi\": executable file not found in $PATH"
    (stdOS { prog := "echo hi", args := [], timeout := cfgBase.localCommandTimeout })
    rfl rfl rfl (by decide) rfl rfl rfl

/-- C7: the claim states that an invocation whose command run exceeds the
command timeout returns the Timeout outcome exactly once.  The guard of
commands.go line 106 reads the shared `timeout` flag without
synchronization while the timer branch closes `c1` (line 115): in the
interleaving below the worker observes `timeout == false`, the timer
branch then sets the flag and closes the channel, and the subsequent
worker send panics (send on closed channel), aborting the process
before the Timeout outcome is returned — an execution of the modelled race
that delivers the Timeout outcome zero times. -/
theorem C7_timeout_race_panic :
    RaceReach raceInit { worker := .panicked, main := .chClosed }
  ∧ returnedOutcome { worker := .panicked, main := .chClosed } = false := by
  constructor
  · have s1 : RaceStep ⟨.running, .branch⟩ ⟨.finished, .branch⟩ :=
      RaceStep.wFinish .branch
    have s2 : RaceStep ⟨.finished, .branch⟩ ⟨.readFalse, .branch⟩ :=
      RaceStep.wReadFalse .branch rfl
    have s3 : RaceStep ⟨.readFalse, .branch⟩ ⟨.readFalse, .flagSet⟩ :=
      RaceStep.mFlag .readFalse (by decide)
    have s4 : RaceStep ⟨.readFalse, .flagSet⟩ ⟨.readFalse, .chClosed⟩ :=
      RaceStep.mClose .readFalse (by decide)
    have s5 : RaceStep ⟨.readFalse, .chClosed⟩ ⟨.panicked, .chClosed⟩ :=
      RaceStep.wSendPanic .chClosed rfl
    exact Relation.ReflTransGen.head s1 (Relation.ReflTransGen.head s2
      (Relation.ReflTransGen.head s3 (Relation.ReflTransGen.head s4
        (Relation.ReflTransGen.single s5))))
  · rfl

/-- Witness for C10 at a non-trivial default config and an alert with no
annotations. -/
theorem C10_no_command_annots_witness :
    (HandleAlertResolve pdNone cfgBase alertNoAnns).1.sshHost = ""
  ∧ (HandleAlertResolve pdNone cfgBase alertNoAnns).1.sshCommand = ""
  ∧ (HandleAlertResolve pdNone cfgBase alertNoAnns).1.localCommand = ""
  ∧ (HandleAlert pdNone stdOS okWorld cfgBase alertNoAnns).2.2 =
      { err := none, localRuns := 0, sshRuns := 0,
        localOutcome := none, sshOutcome := none, incs := [] } :=
  C10_no_command_annots pdNone stdOS okWorld cfgBase alertNoAnns rfl rfl rfl

end Responder
